import Mathlib

set_option maxRecDepth 100000

/-!
Verification development for the `cosmohub-token-list` token-list validator
(`scripts/validate.js`).  The validator is a single-pass file walk: it
discovers chain directories under `assets/`, loads `common.json` and
`popular.json`, validates each token entry, checks duplicate addresses,
chain-id consistency and the popular-subset relation, checks logo files,
and aggregates counters into a final pass/fail exit code.

The JavaScript is embedded shallowly:

* JSON values reaching the validator are modelled by `JVal`; since the
  values come from `JSON.parse`, numbers are finite and non-NaN, so a
  number is either an integer (`jint`) or a finite non-integer
  (`jfloat`, carrying its decimal rendering).
* A token object is a record of optional fields (`undefined` = `none`).
* A file as the validator observes it is its raw text together with the
  result of `JSON.parse` on that text (`FileModel`); the two are carried
  side by side because the parser itself is a library collaborator.
* The file system and the `ethers` address checker are collaborators,
  passed as an explicit environment `Env`.
* The global mutable `stats` object is write-only in the script (counters
  are only incremented, `stats.errors` only appended), so each phase is
  embedded as the delta it contributes and the driver sums the deltas.
-/

/-- A JSON value as seen by the validator after `JSON.parse`. -/
inductive JVal where
  | jint (n : Int)
  | jfloat (r : String)
  | jstr (s : String)
  | jbool (b : Bool)
  | jnull
  | jarr
  | jobj
  deriving DecidableEq, Repr

/-- A token object from a `tokens` array; each field is `none` when the
key is absent (`undefined` in JavaScript). -/
structure Token where
  chainId : Option JVal
  address : Option JVal
  name : Option JVal
  symbol : Option JVal
  decimals : Option JVal
  logoURI : Option JVal
  deriving DecidableEq, Repr

/-- The result of `JSON.parse` on a token-list file, projected to the only
field the validator reads: `tokens` is `some ts` exactly when the parsed
value has a truthy `tokens` field that is an array (of objects, modelled
as `Token`); every other case makes the script report a missing `tokens`
array. -/
structure JDoc where
  tokens : Option (List Token)
  deriving DecidableEq, Repr

/-- What `JSON.parse` returns on a file's text: `perr m` models a parse
exception with message `m`, `pok d` a successful parse. -/
inductive Parsed where
  | perr (m : String)
  | pok (d : JDoc)
  deriving DecidableEq, Repr

/-- A file as the validator observes it: its utf-8 text, its leading bytes
(for image-signature sniffing), and what `JSON.parse` returns on the text. -/
structure FileModel where
  raw : String
  bytes : List Nat
  parsed : Parsed
  deriving DecidableEq, Repr

/-- One entry of `stats.errors`: the file, the optional token label
(`token.address || 'unknown'`; file-level records carry no token key),
and the list of messages. -/
structure ErrRecord where
  file : String
  tok : Option JVal
  errors : List String
  deriving DecidableEq, Repr

/-- The `stats` accumulator of the script. -/
structure Stats where
  totalFiles : Nat
  validFiles : Nat
  invalidFiles : Nat
  missingLogoFiles : Nat
  invalidLogoFiles : Nat
  errors : List ErrRecord
  deriving DecidableEq, Repr

def statsZero : Stats := ⟨0, 0, 0, 0, 0, []⟩

/-- Pointwise sum of two stats deltas (counters add, error lists append). -/
def Stats.add (a b : Stats) : Stats :=
  ⟨a.totalFiles + b.totalFiles, a.validFiles + b.validFiles,
   a.invalidFiles + b.invalidFiles, a.missingLogoFiles + b.missingLogoFiles,
   a.invalidLogoFiles + b.invalidLogoFiles, a.errors ++ b.errors⟩

/-- Delta that only pushes one error record. -/
def oneErr (file : String) (tok : Option JVal) (msgs : List String) : Stats :=
  { statsZero with errors := [⟨file, tok, msgs⟩] }

/-- The environment of collaborators: the on-disk files (path, model),
the existing directories (chain directory paths stored without trailing
slash), and the `ethers` address checker (`ethers.isAddress` and
`ethers.getAddress`, the latter `none` when it throws). -/
structure Env where
  files : List (String × FileModel)
  dirs : List String
  isAddress : String → Bool
  getAddress : String → Option String

/-! ### String helpers

Character-list implementations of the string operations the script uses
(`includes`, `startsWith`, `endsWith`, `substring`, `toLowerCase`,
`join`).  The token-list data is ASCII, where these agree with the
JavaScript operations. -/

/-- Test whether `p` is a leading segment of `l`. -/
def leadSeg : List Char → List Char → Bool
  | [], _ => true
  | _ :: _, [] => false
  | c :: cs, d :: ds => c == d && leadSeg cs ds

/-- Does `pat` occur as a contiguous segment of `l`? -/
def occursIn (pat : List Char) : List Char → Bool
  | [] => leadSeg pat []
  | s@(_ :: rest) => leadSeg pat s || occursIn pat rest

/-- Model of `String.prototype.includes`. -/
def containsSub (s pat : String) : Bool := occursIn pat.data s.data

/-- Model of `String.prototype.startsWith`. -/
def strStarts (s pat : String) : Bool := leadSeg pat.data s.data

/-- Model of `String.prototype.endsWith`. -/
def strEnds (s pat : String) : Bool := leadSeg pat.data.reverse s.data.reverse

/-- Model of `String.prototype.substring(n)` (ASCII: code units = characters). -/
def strDrop (s : String) (n : Nat) : String := String.mk (s.data.drop n)

/-- Model of `String.prototype.toLowerCase` (ASCII). -/
def strLower (s : String) : String := String.mk (s.data.map Char.toLower)

def strLen (s : String) : Nat := s.data.length

/-- Model of `Array.prototype.join` with separator `", "`. -/
def joinComma : List String → String
  | [] => ""
  | x :: xs => xs.foldl (fun acc s => acc ++ ", " ++ s) x

/-- JavaScript string membership test used for `Set`s of strings. -/
def memStr (l : List String) (x : String) : Bool := l.any (fun w => decide (w = x))

/-- Model of `path.join(a, b)` for the repo-relative path shapes the script builds. -/
def pathJoin (a b : String) : String := a ++ "/" ++ b

/-- Single quotes around a string (the script's template literals quote
field names and addresses with `'`). -/
def sQuote (s : String) : String := "\x27" ++ s ++ "\x27"

/-! ### Environment lookups -/

def lookupFile (env : Env) (p : String) : Option FileModel :=
  (env.files.find? (fun e => decide (e.1 = p))).map Prod.snd

/-- Model of `fs.pathExists`: a path exists when it is a modelled file or directory. -/
def envPathExists (env : Env) (p : String) : Bool :=
  (lookupFile env p).isSome || memStr env.dirs p

/-! ### Truthiness and rendering of JSON values -/

/-- JavaScript truthiness of a parsed JSON value.  (`jfloat` comes from
`JSON.parse`, hence is finite, non-zero and non-NaN, so truthy.) -/
def jsTruthy : JVal → Bool
  | .jint n => decide (n ≠ 0)
  | .jfloat _ => true
  | .jstr s => decide (s ≠ "")
  | .jbool b => b
  | .jnull => false
  | .jarr => true
  | .jobj => true

/-- Rendering used for `chainId.toString()` and the template literal
`assets/${chainId}/logos/`.  A `null` chain id makes `.toString()` throw
in JavaScript; that throw is modelled by `vtThrows` aborting the token
loop, so on the paths where this function is consulted with `jnull` (the
template literal of the GitHub branch, which uses `String(chainId)`) the
JavaScript rendering really is `"null"`.  An array's rendering depends
on its elements, which `jarr` does not carry; theorems about rendered
message text therefore restrict chain ids to primitive values. -/
def jvalRender : Option JVal → String
  | some (.jint n) => toString n
  | some (.jfloat r) => r
  | some (.jstr s) => s
  | some (.jbool b) => if b then "true" else "false"
  | some .jnull => "null"
  | some .jarr => ""
  | some .jobj => "[object Object]"
  | none => "undefined"

/-- Is the value a primitive for JavaScript `Set`/rendering purposes?
A `Set` compares arrays and objects by reference identity and renders
arrays by content, neither of which `jarr`/`jobj` carry, so equality
and rendering of chain ids are modelled faithfully only for primitive
values. -/
def isPrimitiveV : Option JVal → Bool
  | some .jarr => false
  | some .jobj => false
  | _ => true

/-- Rendering used by `Array.prototype.join` on the chain-id set
(`join` renders `undefined` and `null` as the empty string). -/
def jvalRenderJoin : Option JVal → String
  | none => ""
  | some .jnull => ""
  | some v => jvalRender (some v)

/-- The record label `token.address || \x27unknown\x27`. -/
def tokenLabel (t : Token) : JVal :=
  match t.address with
  | some v => if jsTruthy v then v else .jstr "unknown"
  | none => .jstr "unknown"

/-! ### Field schema -/

def requiredFields : List String :=
  ["chainId", "address", "name", "symbol", "decimals", "logoURI"]

def getField (t : Token) (f : String) : Option JVal :=
  if f = "chainId" then t.chainId
  else if f = "address" then t.address
  else if f = "name" then t.name
  else if f = "symbol" then t.symbol
  else if f = "decimals" then t.decimals
  else if f = "logoURI" then t.logoURI
  else none

/-- The required fields that are `undefined` on the token, in schema order. -/
def missingFields (t : Token) : List String :=
  requiredFields.filter (fun f => (getField t f).isNone)

/-! ### Messages (exact strings pushed by `validate.js`) -/

def msgMissing (f : String) : String := "Missing required field " ++ sQuote f
def msgChainNum : String := "chainId must be a number"
def msgAddrStr : String := "address must be a string"
def msgAddrChk (a : String) : String :=
  "address " ++ (sQuote a ++ " is not a valid checksum address")
def msgNameStr : String := "name must be a string"
def msgSymStr : String := "symbol must be a string"
def msgDecInt : String := "decimals must be an integer"
def msgLogoStr : String := "logoURI must be a string"
def msgLogoShape : String :=
  "logoURI must be a valid URL or a local file path (./logos/ or /assets/)"
def msgLogoMissing (p : String) : String := "Logo file does not exist: " ++ p
def msgLogoInvalid (p : String) : String :=
  "Logo file is not a valid PNG or JPEG image: " ++ p
def msgDup (ds : List String) : String :=
  "Duplicate addresses found: " ++ joinComma ds
def msgChainIds (vs : List (Option JVal)) : String :=
  "Multiple chainIds found: " ++ joinComma (vs.map jvalRenderJoin)
def msgSubset (ts : List String) : String :=
  "Contains tokens not found in common.json: " ++ joinComma ts
def msgIndent : String := "File is not formatted with 2-space indentation"
def msgBadJson (m : String) : String := "Invalid JSON: " ++ m
def msgNoTokens : String := "Missing \"tokens\" array"
/-- The `error.message` of a failed `fs.readFile`; its exact text is a
system detail the model fixes to a representative constant. -/
def readErrText : String := "ENOENT: no such file or directory"
def msgReadErr : String := "Error reading file: " ++ readErrText
/-- The `error.message` of a `TypeError` thrown inside the token loop
(a truthy non-string `address` hitting `toLowerCase()`, or a `null`
`chainId` hitting `toString()`) and caught by `validateFile`; the exact
engine wording is fixed to a representative constant. -/
def loopErrText : String := "TypeError"
def msgLoopErr : String := "Error reading file: " ++ loopErrText
/-- The `error.message` of the exception caught in
`validatePopularSubset`; fixed to a representative constant. -/
def subsetCatchText : String := "TypeError"
def msgSubsetCatch : String := "Error validating popular subset: " ++ subsetCatchText
def msgNoLogoDir : String := "Logo directory not found"
def msgBadLogoFile : String := "Not a valid PNG or JPEG image file"
def msgNoCommon : String := "common.json not found"
def msgNoPopular : String := "popular.json not found"

/-! ### `isValidChecksumAddress`, image sniffing, `resolveLogoPath` -/

/-- Embedding of `isValidChecksumAddress`: `ethers.isAddress` must accept the string
and `ethers.getAddress` must return it unchanged. -/
def isValidChecksumAddress (env : Env) (address : String) : Bool :=
  if env.isAddress address then
    match env.getAddress address with
    | some c => decide (address = c)
    | none => false
  else false

/-- PNG 8-byte signature check on the leading bytes. -/
def isPng (b : List Nat) : Bool :=
  decide (8 ≤ b.length) && (b.getD 0 0 == 0x89) && (b.getD 1 0 == 0x50) &&
  (b.getD 2 0 == 0x4E) && (b.getD 3 0 == 0x47) && (b.getD 4 0 == 0x0D) &&
  (b.getD 5 0 == 0x0A) && (b.getD 6 0 == 0x1A) && (b.getD 7 0 == 0x0A)

/-- JPEG 2-byte signature check. -/
def isJpeg (b : List Nat) : Bool :=
  decide (2 ≤ b.length) && (b.getD 0 0 == 0xFF) && (b.getD 1 0 == 0xD8)

/-- Embedding of `isValidImageFile`: the file must exist and its leading bytes must be
a PNG or JPEG signature.  A path that exists only as a directory has no
readable bytes and fails, matching the catch-all `return false`. -/
def isValidImageFile (env : Env) (p : String) : Bool :=
  if envPathExists env p then
    match lookupFile env p with
    | some fm => isPng fm.bytes || isJpeg fm.bytes
    | none => false
  else false

/-- The repository substring tested by `logoURI.includes(...)`. -/
def ghRepo : String := "github.com/First-Point/cosmohub-token-list/"

/-- The suffix of `l` starting at the first occurrence of `pat`. -/
def suffixFromList (pat : List Char) : List Char → Option (List Char)
  | [] => if leadSeg pat [] then some [] else none
  | s@(_ :: rest) => if leadSeg pat s then some s else suffixFromList pat rest

/-- The suffix of `s` starting at the first occurrence of `pat`
(the match of the regex `/assets\/.*$/` for newline-free inputs). -/
def suffixFrom (s pat : String) : Option String :=
  (suffixFromList pat.data s.data).map String.mk

/-- Embedding of `resolveLogoPath(logoURI, chainId)`; `chainIdS` is the JavaScript
rendering of the token's `chainId`.  Returns the local file path to
check, or `none` for external URLs / unresolvable URIs. -/
def resolveLogoPath (logoURI : String) (chainIdS : String) : Option String :=
  if strStarts logoURI "http" then
    none
  else if strStarts logoURI "./logos/" then
    some (pathJoin (pathJoin "assets" chainIdS) (strDrop logoURI 2))
  else if strStarts logoURI "/assets/" then
    some (strDrop logoURI 1)
  else if containsSub logoURI ghRepo &&
          containsSub logoURI ("assets/" ++ chainIdS ++ "/logos/") then
    match suffixFrom logoURI "assets/" with
    | some m => some m
    | none => none
  else none

/-! ### `validateToken` -/

def isNumberV : Option JVal → Bool
  | some (.jint _) => true
  | some (.jfloat _) => true
  | _ => false

/-- The type-check messages of `validateToken`, in source order
(`chainId`, `address`, `name`, `symbol`, `decimals`). -/
def typeErrs (env : Env) (t : Token) : List String :=
  (if isNumberV t.chainId then [] else [msgChainNum]) ++
  (match t.address with
   | some (.jstr a) => if isValidChecksumAddress env a then [] else [msgAddrChk a]
   | _ => [msgAddrStr]) ++
  (match t.name with | some (.jstr _) => [] | _ => [msgNameStr]) ++
  (match t.symbol with | some (.jstr _) => [] | _ => [msgSymStr]) ++
  (match t.decimals with | some (.jint _) => [] | _ => [msgDecInt]) ++ []

/-- The `logoURI` shape test of `validateToken`. -/
def logoShapeOk (u : String) : Bool :=
  strStarts u "http" || strStarts u "./logos/" || strStarts u "/assets/" ||
  containsSub u ghRepo

/-- The `logoURI` checks of `validateToken`: the messages pushed and the
increments of `stats.missingLogoFiles` / `stats.invalidLogoFiles`. -/
def logoCheck (env : Env) (t : Token) : List String × Nat × Nat :=
  match t.logoURI with
  | some (.jstr u) =>
    if logoShapeOk u then
      match resolveLogoPath u (jvalRender t.chainId) with
      | none => ([], 0, 0)
      | some p =>
        if envPathExists env p then
          if isValidImageFile env p then ([], 0, 0)
          else ([msgLogoInvalid p], 0, 1)
        else ([msgLogoMissing p], 1, 0)
    else ([msgLogoShape], 0, 0)
  | _ => ([msgLogoStr], 0, 0)

/-- Embedding of `validateToken(token, file)`: returns whether the token is valid and
the stats delta it contributes.  Missing required fields short-circuit:
only the missing-field messages are recorded and no type, address-format
or logo check runs. -/
def validateToken (env : Env) (t : Token) (file : String) : Bool × Stats :=
  let missing := missingFields t
  if missing.isEmpty then
    let lc := logoCheck env t
    let errs := typeErrs env t ++ lc.1
    if errs.isEmpty then
      (true, ⟨0, 0, 0, lc.2.1, lc.2.2, []⟩)
    else
      (false, ⟨0, 0, 0, lc.2.1, lc.2.2, [⟨file, some (tokenLabel t), errs⟩]⟩)
  else
    (false, oneErr file (some (tokenLabel t)) (missing.map msgMissing))

/-! ### `validateFile`: per-file structural checks and the token loop -/

/-- State of the sequential token loop in `validateFile`: the running
validity flag, the stats delta accumulated so far, the set of lowercased
addresses already seen, and the literal addresses found to repeat. -/
structure LoopSt where
  allValid : Bool
  acc : Stats
  seen : List String
  dups : List String

/-- Does processing this token make `validateToken` throw?  The only
throwing statement reachable from `validateToken` is `chainId.toString()`
inside `resolveLogoPath`, reached when no required field is missing,
`logoURI` is a string starting with `./logos/` (hence shape-valid) and
not with `http`, and `chainId` is `null`.  The thrown `TypeError`
escapes before any record is pushed or counter bumped for the token. -/
def vtThrows (t : Token) : Bool :=
  (missingFields t).isEmpty &&
  (match t.logoURI with
   | some (.jstr u) =>
     !strStarts u "http" && strStarts u "./logos/" && decide (t.chainId = some .jnull)
   | _ => false)

/-- Does the duplicate detector make the token loop throw?
`token.address.toLowerCase()` throws a `TypeError` exactly when the
address is truthy and not a string (numbers, `true`, arrays, objects). -/
def dupThrows (t : Token) : Bool :=
  match t.address with
  | some (.jstr _) => false
  | some v => jsTruthy v
  | none => false

/-- The duplicate detector fed by one token's address.  Only a truthy
address is checked (`if (token.address)`); a truthy non-string address
aborts the loop via `dupThrows` before this function is consulted, so
the remaining non-string values here are falsy and skipped. -/
def dupUpdate (seen dups : List String) (addr : Option JVal) : List String × List String :=
  match addr with
  | some (.jstr a) =>
    if decide (a = "") then (seen, dups)
    else if memStr seen (strLower a) then (seen, dups ++ [a])
    else (seen ++ [strLower a], dups)
  | _ => (seen, dups)

/-- One non-throwing iteration of the token loop: validate the token
(first), then feed its address into the duplicate detector. -/
def loopStep (env : Env) (file : String) (ls : LoopSt) (t : Token) : LoopSt :=
  let r := validateToken env t file
  let sd := dupUpdate ls.seen ls.dups t.address
  ⟨ls.allValid && r.1, ls.acc.add r.2, sd.1, sd.2⟩

/-- The sequential token loop, including its exception behaviour: a
`vtThrows` token aborts before contributing anything (its local error
list is discarded and no counter was bumped yet), a `dupThrows` token
aborts after `validateToken` already contributed its record and
counters.  `.error` carries the stats accumulated up to the abort;
`.ok` the final loop state. -/
def runTokens (env : Env) (file : String) : List Token → LoopSt → Except Stats LoopSt
  | [], ls => .ok ls
  | t :: ts, ls =>
    if vtThrows t then .error ls.acc
    else if dupThrows t then .error (ls.acc.add (validateToken env t file).2)
    else runTokens env file ts (loopStep env file ls t)

/-- Membership in a list of chain-id values (JavaScript `Set` uses
SameValueZero; object identity of `jobj`/`jarr` values is not modelled). -/
def memVal (l : List (Option JVal)) (v : Option JVal) : Bool :=
  l.any (fun w => decide (w = v))

/-- Model of `new Set(xs)` in insertion order (first occurrences). -/
def jsSetOf (vs : List (Option JVal)) : List (Option JVal) :=
  vs.foldl (fun l v => if memVal l v then l else l ++ [v]) []

/-- The distinct `chainId` values of a document, in first-occurrence order. -/
def chainIdsOf (tokens : List Token) : List (Option JVal) :=
  jsSetOf (tokens.map (fun t => t.chainId))

/-- The delta of the duplicate-address report. -/
def dupStats (file : String) (dups : List String) : Stats :=
  if dups.isEmpty then statsZero else oneErr file none [msgDup dups]

/-- The delta of the chain-id-consistency report. -/
def chainStats (file : String) (tokens : List Token) : Stats :=
  if decide ((chainIdsOf tokens).length ≤ 1) then statsZero
  else oneErr file none [msgChainIds (chainIdsOf tokens)]

/-- Embedding of `validateFile(filePath)`: indentation check, JSON parse, `tokens`
array check, then the sequential token loop followed by the
duplicate-address and chain-id-consistency reports.  A `TypeError`
thrown inside the loop is caught by the function's catch, which pushes
one read-error record and returns false before the duplicate and
chain-id reports run.  Returns whether the file is valid and the stats
delta. -/
def validateFile (env : Env) (filePath : String) : Bool × Stats :=
  match lookupFile env filePath with
  | none => (false, oneErr filePath none [msgReadErr])
  | some fm =>
    if containsSub fm.raw "\n  \"" then
      match fm.parsed with
      | .perr m => (false, oneErr filePath none [msgBadJson m])
      | .pok doc =>
        match doc.tokens with
        | none => (false, oneErr filePath none [msgNoTokens])
        | some tokens =>
          if tokens.isEmpty then (true, statsZero)
          else
            match runTokens env filePath tokens ⟨true, statsZero, [], []⟩ with
            | .error acc => (false, acc.add (oneErr filePath none [msgLoopErr]))
            | .ok ls =>
              ((ls.allValid && ls.dups.isEmpty) && decide ((chainIdsOf tokens).length ≤ 1),
               (ls.acc.add (dupStats filePath ls.dups)).add (chainStats filePath tokens))
    else (false, oneErr filePath none [msgIndent])

/-! ### `validatePopularSubset` -/

/-- Re-read and re-parse a file the way `validatePopularSubset` does;
`none` models every path on which the function would throw before the
subset loop (unreadable file, parse error, missing/non-array `tokens`). -/
def readDocTokens (env : Env) (p : String) : Option (List Token) :=
  match lookupFile env p with
  | some fm =>
    match fm.parsed with
    | .pok doc => doc.tokens
    | .perr _ => none
  | none => none

def addrIsStr (t : Token) : Bool :=
  match t.address with | some (.jstr _) => true | _ => false

def addrStrOf (t : Token) : String :=
  match t.address with | some (.jstr a) => a | _ => ""

/-- The literal addresses of `popular` tokens whose lowercased address is
not among the lowercased `common` addresses, in document order. -/
def subsetUnmatched (cts pts : List Token) : List String :=
  let commonAddrs := cts.map (fun t => strLower (addrStrOf t))
  (pts.filter (fun t => !(memStr commonAddrs (strLower (addrStrOf t))))).map addrStrOf

/-- Embedding of `validatePopularSubset(commonPath, popularPath)`.  A token with a
non-string address makes `toLowerCase()` throw; together with the
read/parse failures this lands in the catch branch. -/
def validatePopularSubset (env : Env) (commonPath popularPath : String) : Bool × Stats :=
  match readDocTokens env commonPath, readDocTokens env popularPath with
  | some cts, some pts =>
    if cts.all addrIsStr && pts.all addrIsStr then
      let invalid := subsetUnmatched cts pts
      if invalid.isEmpty then (true, statsZero)
      else (false, oneErr popularPath none [msgSubset invalid])
    else (false, oneErr popularPath none [msgSubsetCatch])
  | _, _ => (false, oneErr popularPath none [msgSubsetCatch])

/-! ### `validateLogoDirectory` -/

/-- Model of the glob over `*.png` names in `logoDir`: the modelled files directly
inside `logoDir` whose name ends in `.png`, in file-list order. -/
def globPng (env : Env) (logoDir : String) : List String :=
  (env.files.map Prod.fst).filter (fun p =>
    strStarts p (logoDir ++ "/") && strEnds p ".png" &&
    !(containsSub (strDrop p (strLen logoDir + 1)) "/"))

/-- Embedding of `validateLogoDirectory(chainDir)`: report a missing `logos` directory,
otherwise sniff every `*.png` file in it. -/
def validateLogoDirectory (env : Env) (chainDir : String) : Bool × Stats :=
  let logoDir := pathJoin chainDir "logos"
  if envPathExists env logoDir then
    let bad := (globPng env logoDir).filter (fun f => !(isValidImageFile env f))
    (bad.isEmpty,
     ⟨0, 0, 0, 0, bad.length, bad.map (fun f => ⟨f, none, [msgBadLogoFile]⟩)⟩)
  else (false, oneErr logoDir none [msgNoLogoDir])

/-! ### The driver `validateTokenLists` -/

/-- The subset step of the driver: the check runs only when both files
passed their own validation (`if (commonValid && popularValid)`). -/
def subsetPart (env : Env) (commonValid popularValid : Bool)
    (commonPath popularPath : String) : Bool × Stats :=
  if commonValid && popularValid then validatePopularSubset env commonPath popularPath
  else (false, statsZero)

/-- Does a directory path match the glob pattern `assets/*/`? -/
def isChainDir (d : String) : Bool :=
  strStarts d "assets/" && !(decide (strDrop d 7 = "")) && !(containsSub (strDrop d 7) "/")

/-- Model of the chain-directory glob: the chain directories, in directory-list order. -/
def chainDirsOf (env : Env) : List String := env.dirs.filter isChainDir

/-- Processing of one chain directory inside the driver loop: existence
checks for the two files, logo-directory validation (result discarded),
the two file validations, the conditional subset check, and the
valid/invalid tally of the two files. -/
def processChain (env : Env) (chainDir : String) : Stats :=
  let commonPath := pathJoin chainDir "common.json"
  let popularPath := pathJoin chainDir "popular.json"
  if envPathExists env commonPath then
    if envPathExists env popularPath then
      let logoPart := (validateLogoDirectory env chainDir).2
      let c := validateFile env commonPath
      let p := validateFile env popularPath
      let s := subsetPart env c.1 p.1 commonPath popularPath
      let tally : Stats :=
        ⟨2, (if c.1 then 1 else 0) + (if p.1 && s.1 then 1 else 0),
         (if c.1 then 0 else 1) + (if p.1 && s.1 then 0 else 1), 0, 0, []⟩
      ((logoPart.add c.2).add p.2).add (s.2.add tally)
    else ⟨0, 0, 1, 0, 0, [⟨chainDir, none, [msgNoPopular]⟩]⟩
  else ⟨0, 0, 1, 0, 0, [⟨chainDir, none, [msgNoCommon]⟩]⟩

/-- Embedding of `validateTokenLists()`: fold the per-chain deltas, then exit with
code 1 exactly when any of the three failure counters is positive
(`stats.invalidFiles > 0 || stats.missingLogoFiles > 0 ||
stats.invalidLogoFiles > 0`), else 0. -/
def validateTokenLists (env : Env) : Nat × Stats :=
  let final := (chainDirsOf env).foldl (fun st d => st.add (processChain env d)) statsZero
  (if 0 < final.invalidFiles ∨ 0 < final.missingLogoFiles ∨ 0 < final.invalidLogoFiles
   then 1 else 0, final)

/-! ### The minimal valid pair of the specification

`common.json` and `popular.json` each hold the single checksum-address
token, a valid PNG sits at the derived path, and the files are
pretty-printed with 2-space indentation (the repo's on-disk format; the
validator rejects compact printing, see the indentation theorems).
`\x7b` and `\x7d` are the brace characters of the JSON text. -/

def addr8 : String := "0xAb5801a7D398351b8bE11C439e05C5B3259aeC9B"
def addrLow8 : String := "0xab5801a7d398351b8be11c439e05c5b3259aec9b"
def logoURI8 : String := "./logos/" ++ addrLow8 ++ ".png"
def logoPath8 : String := "assets/1/logos/" ++ addrLow8 ++ ".png"

def token8 : Token :=
  ⟨some (.jint 1), some (.jstr addr8), some (.jstr "Test"),
   some (.jstr "TST"), some (.jint 18), some (.jstr logoURI8)⟩

def doc8 : JDoc := ⟨some [token8]⟩

/-- The pretty-printed text of the minimal `common.json`/`popular.json`. -/
def raw8 : String :=
  "\x7b\n  \"tokens\": [\n    \x7b\n      \"chainId\": 1,\n      \"address\": \"" ++
  addr8 ++ "\",\n      \"name\": \"Test\",\n      \"symbol\": \"TST\",\n      \"decimals\": 18,\n      \"logoURI\": \"" ++
  logoURI8 ++ "\"\n    \x7d\n  ]\n\x7d"

def fm8 : FileModel := ⟨raw8, [], .pok doc8⟩

/-- The 8-byte PNG signature. -/
def pngBytes : List Nat := [0x89, 0x50, 0x4E, 0x47, 0x0D, 0x0A, 0x1A, 0x0A]

/-- The PNG logo file (its text/parse views are never consulted). -/
def pngFm : FileModel := ⟨"", pngBytes, .perr "Unexpected token"⟩

/-- The §8 environment, parameterized by the `ethers` address checker. -/
def env8 (A : String → Bool) (G : String → Option String) : Env :=
  ⟨[("assets/1/common.json", fm8), ("assets/1/popular.json", fm8), (logoPath8, pngFm)],
   ["assets", "assets/1", "assets/1/logos"], A, G⟩

/-- The §8 environment after deleting the PNG file. -/
def env5 (A : String → Bool) (G : String → Option String) : Env :=
  ⟨[("assets/1/common.json", fm8), ("assets/1/popular.json", fm8)],
   ["assets", "assets/1", "assets/1/logos"], A, G⟩

/-- Concrete model of `ethers.isAddress` restricted to the inputs the
scenarios exercise: it accepts exactly the one checksum address. -/
def chk8A : String → Bool := fun s => decide (s = addr8)

/-- Concrete model of `ethers.getAddress` on the same inputs. -/
def chk8G : String → Option String := fun s => if decide (s = addr8) then some addr8 else none

/-! ### Classifying error messages

Every message class the script produces has a distinct two-character
head, which lets theorems count occurrences of one error kind inside an
arbitrary error list. -/

/-- The first two characters of a message. -/
def msgHead2 (m : String) : List Char := m.data.take 2

/-- Recognizer for the chain-id-mismatch message (`"Multiple chainIds
found: ..."` is the only message class starting with `Mu`). -/
def isChainMsg (m : String) : Bool := decide (msgHead2 m = ['M', 'u'])

/-- Recognizer for the duplicate-address message (`"Duplicate addresses
found: ..."` is the only message class starting with `Du`). -/
def isDupMsg (m : String) : Bool := decide (msgHead2 m = ['D', 'u'])

/-- Number of messages satisfying `p` across a list of error records. -/
def msgCount (p : String → Bool) (errs : List ErrRecord) : Nat :=
  (errs.map (fun r => (r.errors.filter p).length)).sum

/-! ### Further concrete scenarios used by counterexamples and witnesses -/

/-- A token carrying only an upper-case variant address. -/
def tDupA : Token := ⟨none, some (.jstr "0xAB"), none, none, none, none⟩

/-- A token carrying only the lower-case variant of the same address. -/
def tDupB : Token := ⟨none, some (.jstr "0xab"), none, none, none, none⟩

def fmDup : FileModel := ⟨"\n  \"", [], .pok ⟨some [tDupA, tDupB]⟩⟩

def envDup : Env := ⟨[("f.json", fmDup)], [], fun _ => false, fun _ => none⟩

def tSubA : Token := ⟨none, some (.jstr "0xAAA"), none, none, none, none⟩
def tSubB : Token := ⟨none, some (.jstr "0xBBB"), none, none, none, none⟩
def tSubC : Token := ⟨none, some (.jstr "0xCCC"), none, none, none, none⟩

def fmSubCommon : FileModel := ⟨"\n  \"", [], .pok ⟨some [tSubA]⟩⟩
def fmSubPopular : FileModel := ⟨"\n  \"", [], .pok ⟨some [tSubB, tSubC]⟩⟩

def envSub : Env := ⟨[("c.json", fmSubCommon), ("p.json", fmSubPopular)], [],
  fun _ => false, fun _ => none⟩

/-- A scheme-less URI containing the repository substring. -/
def u0 : String := "github.com/First-Point/cosmohub-token-list/assets/1/logos/a.png"

/-- A token whose `logoURI` is the scheme-less repository URI. -/
def tokU0 : Token := ⟨some (.jint 1), some (.jstr "0xA"), some (.jstr "N"),
  some (.jstr "S"), some (.jint 0), some (.jstr u0)⟩

/-- An empty file system (so the resolved logo path does not exist). -/
def envU0 : Env := ⟨[], [], fun _ => false, fun _ => none⟩

/-- The §8 token with a remote (`https`) logo URI instead of a local one. -/
def tokenH : Token :=
  ⟨some (.jint 1), some (.jstr addr8), some (.jstr "Test"),
   some (.jstr "TST"), some (.jint 18), some (.jstr "https://example.com/logo.png")⟩

/-- Pretty-printed text of the remote-logo token list. -/
def rawH : String :=
  "\x7b\n  \"tokens\": [\n    \x7b\n      \"chainId\": 1,\n      \"address\": \"" ++
  addr8 ++ "\",\n      \"name\": \"Test\",\n      \"symbol\": \"TST\",\n      \"decimals\": 18,\n      \"logoURI\": \"https://example.com/logo.png\"\n    \x7d\n  ]\n\x7d"

def fmH : FileModel := ⟨rawH, [], .pok ⟨some [tokenH]⟩⟩

/-- A chain directory with valid files (remote logo URI) and no `logos`
subdirectory. -/
def envC8 : Env :=
  ⟨[("assets/1/common.json", fmH), ("assets/1/popular.json", fmH)],
   ["assets", "assets/1"], chk8A, chk8G⟩

/-- The §8 document printed compactly (no 2-space indentation), with its
(successful) parse. -/
def rawC9 : String :=
  "\x7b\"tokens\":[\x7b\"chainId\":1,\"address\":\"" ++ addr8 ++
  "\",\"name\":\"Test\",\"symbol\":\"TST\",\"decimals\":18,\"logoURI\":\"" ++
  logoURI8 ++ "\"\x7d]\x7d"

def fmC9 : FileModel := ⟨rawC9, [], .pok doc8⟩

def envC9 : Env := ⟨[("assets/1/common.json", fmC9), (logoPath8, pngFm)],
  ["assets", "assets/1", "assets/1/logos"], chk8A, chk8G⟩

/-- Two tokens that differ only in their `chainId` values, and the
document and environment holding them. -/
def tCid1 : Token := ⟨some (.jint 1), none, none, none, none, none⟩

def tCid2 : Token := ⟨some (.jint 2), none, none, none, none, none⟩

def fmCid : FileModel := ⟨"\n  \"", [], .pok ⟨some [tCid1, tCid2]⟩⟩

def envCid : Env := ⟨[("f.json", fmCid)], [], fun _ => false, fun _ => none⟩

/-- Two tokens with distinct `chainId` values where the first token's
address is the number 5: processing it reaches
`token.address.toLowerCase()`, which throws. -/
def tCX1 : Token := ⟨some (.jint 1), some (.jint 5), none, none, none, none⟩

def tCX2 : Token := ⟨some (.jint 2), none, none, none, none, none⟩

def fmCX : FileModel := ⟨"\n  \"", [], .pok ⟨some [tCX1, tCX2]⟩⟩

def envCX : Env := ⟨[("f.json", fmCX)], [], fun _ => false, fun _ => none⟩

/-- The §8 token with the `decimals` field deleted. -/
def tokenNoDec : Token :=
  ⟨some (.jint 1), some (.jstr addr8), some (.jstr "Test"),
   some (.jstr "TST"), none, some (.jstr logoURI8)⟩

/-! ### General lemmas about the embedding -/

theorem stats_add_errors (a b : Stats) : (a.add b).errors = a.errors ++ b.errors := rfl

theorem stats_add_statsZero (s : Stats) : s.add statsZero = s := by
  cases s; simp [Stats.add, statsZero]

theorem statsZero_add (s : Stats) : statsZero.add s = s := by
  cases s; simp [Stats.add, statsZero]

theorem msgCount_append (p : String → Bool) (a b : List ErrRecord) :
    msgCount p (a ++ b) = msgCount p a + msgCount p b := by
  simp [msgCount]

theorem msgCount_nil (p : String → Bool) : msgCount p [] = 0 := rfl

theorem msgCount_flatten (p : String → Bool) (rls : List (List ErrRecord)) :
    msgCount p rls.flatten = (rls.map (msgCount p)).sum := by
  induction rls with
  | nil => rfl
  | cons r rs ih => simp [List.flatten, msgCount_append, ih]

theorem msgCount_eq_zero (p : String → Bool) (errs : List ErrRecord)
    (h : ∀ r ∈ errs, ∀ m ∈ r.errors, p m = false) : msgCount p errs = 0 := by
  unfold msgCount
  apply List.sum_eq_zero
  intro x hx
  rcases List.mem_map.mp hx with ⟨r, hr, hrx⟩
  have : r.errors.filter p = [] := by
    apply List.filter_eq_nil_iff.mpr
    intro m hm
    simp [h r hr m hm]
  simp [← hrx, this]

theorem msgHead2_of_append (p x : String) (c d : Char)
    (h : p.data = c :: d :: p.data.drop 2) : msgHead2 (p ++ x) = [c, d] := by
  simp [msgHead2, String.data_append]
  rw [h]
  rfl

/-- The two-character heads of the parametric message shapes. -/
theorem msgHead2_msgMissing (f : String) : msgHead2 (msgMissing f) = ['M', 'i'] :=
  msgHead2_of_append _ _ _ _ (by decide)

theorem msgHead2_msgAddrChk (a : String) : msgHead2 (msgAddrChk a) = ['a', 'd'] :=
  msgHead2_of_append _ _ _ _ (by decide)

theorem msgHead2_msgLogoMissing (p : String) : msgHead2 (msgLogoMissing p) = ['L', 'o'] :=
  msgHead2_of_append _ _ _ _ (by decide)

theorem msgHead2_msgLogoInvalid (p : String) : msgHead2 (msgLogoInvalid p) = ['L', 'o'] :=
  msgHead2_of_append _ _ _ _ (by decide)

theorem msgHead2_msgDup (ds : List String) : msgHead2 (msgDup ds) = ['D', 'u'] :=
  msgHead2_of_append _ _ _ _ (by decide)

theorem msgHead2_msgChainIds (vs : List (Option JVal)) :
    msgHead2 (msgChainIds vs) = ['M', 'u'] :=
  msgHead2_of_append _ _ _ _ (by decide)

theorem msgHead2_msgSubset (ts : List String) : msgHead2 (msgSubset ts) = ['C', 'o'] :=
  msgHead2_of_append _ _ _ _ (by decide)

theorem msgHead2_msgBadJson (m : String) : msgHead2 (msgBadJson m) = ['I', 'n'] :=
  msgHead2_of_append _ _ _ _ (by decide)

/-- Every type-check message is one of the six fixed shapes. -/
theorem mem_typeErrs (env : Env) (t : Token) (m : String) (hm : m ∈ typeErrs env t) :
    m = msgChainNum ∨ (∃ a, m = msgAddrChk a) ∨ m = msgAddrStr ∨
    m = msgNameStr ∨ m = msgSymStr ∨ m = msgDecInt := by
  unfold typeErrs at hm
  simp only [List.append_nil, List.mem_append] at hm
  rcases hm with (((h | h) | h) | h) | h
  · split at h
    · simp at h
    · simp only [List.mem_singleton] at h
      exact .inl h
  · split at h
    · rename_i a heq
      split at h
      · simp at h
      · simp only [List.mem_singleton] at h
        exact .inr (.inl ⟨a, h⟩)
    · simp only [List.mem_singleton] at h
      exact .inr (.inr (.inl h))
  · split at h
    · simp at h
    · simp only [List.mem_singleton] at h
      exact .inr (.inr (.inr (.inl h)))
  · split at h
    · simp at h
    · simp only [List.mem_singleton] at h
      exact .inr (.inr (.inr (.inr (.inl h))))
  · split at h
    · simp at h
    · simp only [List.mem_singleton] at h
      exact .inr (.inr (.inr (.inr (.inr h))))

/-- Every logo-check message is one of the four logo shapes. -/
theorem mem_logoCheck (env : Env) (t : Token) (m : String)
    (hm : m ∈ (logoCheck env t).1) :
    m = msgLogoStr ∨ m = msgLogoShape ∨
    (∃ p, m = msgLogoMissing p) ∨ (∃ p, m = msgLogoInvalid p) := by
  unfold logoCheck at hm
  split at hm
  · rename_i u heq
    split at hm
    · split at hm
      · simp at hm
      · rename_i p heq2
        split at hm
        · split at hm
          · simp at hm
          · simp only [List.mem_singleton] at hm
            exact .inr (.inr (.inr ⟨p, hm⟩))
        · simp only [List.mem_singleton] at hm
          exact .inr (.inr (.inl ⟨p, hm⟩))
    · simp only [List.mem_singleton] at hm
      exact .inr (.inl hm)
  · simp only [List.mem_singleton] at hm
    exact .inl hm

/-- If the logo check produced no message it also bumped no counter. -/
theorem logoCheck_nil_counters (env : Env) (t : Token) :
    (logoCheck env t).1 = [] → (logoCheck env t).2 = (0, 0) := by
  unfold logoCheck
  split
  · split
    · split
      · intro h
        rfl
      · split
        · split
          · intro h
            rfl
          · intro h
            simp at h
        · intro h
          simp at h
    · intro h
      simp at h
  · intro h
    simp at h

/-- A message whose two-character head is neither `Mu` nor `Du` is neither
a chain-id-mismatch nor a duplicate-address message. -/
theorem head2_not_special (m : String) (c d : Char) (h : msgHead2 m = [c, d])
    (h1 : ¬(c = 'M' ∧ d = 'u')) (h2 : ¬(c = 'D' ∧ d = 'u')) :
    isChainMsg m = false ∧ isDupMsg m = false := by
  unfold isChainMsg isDupMsg
  rw [h]
  constructor
  · rw [decide_eq_false_iff_not]
    simp only [List.cons.injEq, and_true]
    exact h1
  · rw [decide_eq_false_iff_not]
    simp only [List.cons.injEq, and_true]
    exact h2

/-- No message produced by `validateToken` is a chain-id-mismatch or a
duplicate-address message. -/
theorem validateToken_not_special (env : Env) (t : Token) (file : String) :
    ∀ r ∈ (validateToken env t file).2.errors, ∀ m ∈ r.errors,
      isChainMsg m = false ∧ isDupMsg m = false := by
  intro r hr m hm
  have hshape : (∃ f, m = msgMissing f) ∨ m = msgChainNum ∨ (∃ a, m = msgAddrChk a) ∨
      m = msgAddrStr ∨ m = msgNameStr ∨ m = msgSymStr ∨ m = msgDecInt ∨
      m = msgLogoStr ∨ m = msgLogoShape ∨
      (∃ p, m = msgLogoMissing p) ∨ (∃ p, m = msgLogoInvalid p) := by
    simp only [validateToken] at hr
    split at hr
    · split at hr
      · simp at hr
      · simp only [List.mem_singleton] at hr
        subst hr
        simp only [] at hm
        rcases List.mem_append.mp hm with hm | hm
        · rcases mem_typeErrs env t m hm with h | h | h | h | h | h
          · exact .inr (.inl h)
          · exact .inr (.inr (.inl h))
          · exact .inr (.inr (.inr (.inl h)))
          · exact .inr (.inr (.inr (.inr (.inl h))))
          · exact .inr (.inr (.inr (.inr (.inr (.inl h)))))
          · exact .inr (.inr (.inr (.inr (.inr (.inr (.inl h))))))
        · rcases mem_logoCheck env t m hm with h | h | h | h
          · exact .inr (.inr (.inr (.inr (.inr (.inr (.inr (.inl h)))))))
          · exact .inr (.inr (.inr (.inr (.inr (.inr (.inr (.inr (.inl h))))))))
          · exact .inr (.inr (.inr (.inr (.inr (.inr (.inr (.inr (.inr (.inl h)))))))))
          · exact .inr (.inr (.inr (.inr (.inr (.inr (.inr (.inr (.inr (.inr h)))))))))
    · simp only [oneErr, statsZero, List.mem_singleton] at hr
      subst hr
      simp only [] at hm
      rcases List.mem_map.mp hm with ⟨f, _, hf⟩
      exact .inl ⟨f, hf.symm⟩
  rcases hshape with ⟨f, h⟩ | h | ⟨a, h⟩ | h | h | h | h | h | h | ⟨p, h⟩ | ⟨p, h⟩ <;> subst h
  · exact head2_not_special _ 'M' 'i' (msgHead2_msgMissing f) (by decide) (by decide)
  · exact head2_not_special _ 'c' 'h' (by decide) (by decide) (by decide)
  · exact head2_not_special _ 'a' 'd' (msgHead2_msgAddrChk a) (by decide) (by decide)
  · exact head2_not_special _ 'a' 'd' (by decide) (by decide) (by decide)
  · exact head2_not_special _ 'n' 'a' (by decide) (by decide) (by decide)
  · exact head2_not_special _ 's' 'y' (by decide) (by decide) (by decide)
  · exact head2_not_special _ 'd' 'e' (by decide) (by decide) (by decide)
  · exact head2_not_special _ 'l' 'o' (by decide) (by decide) (by decide)
  · exact head2_not_special _ 'l' 'o' (by decide) (by decide) (by decide)
  · exact head2_not_special _ 'L' 'o' (msgHead2_msgLogoMissing p) (by decide) (by decide)
  · exact head2_not_special _ 'L' 'o' (msgHead2_msgLogoInvalid p) (by decide) (by decide)

theorem validateToken_msgCount_chain (env : Env) (t : Token) (file : String) :
    msgCount isChainMsg (validateToken env t file).2.errors = 0 :=
  msgCount_eq_zero _ _ (fun r hr m hm => (validateToken_not_special env t file r hr m hm).1)

theorem validateToken_msgCount_dup (env : Env) (t : Token) (file : String) :
    msgCount isDupMsg (validateToken env t file).2.errors = 0 :=
  msgCount_eq_zero _ _ (fun r hr m hm => (validateToken_not_special env t file r hr m hm).2)

/-- A token that validates contributes an empty stats delta. -/
theorem validateToken_true_delta (env : Env) (t : Token) (file : String) :
    (validateToken env t file).1 = true → (validateToken env t file).2 = statsZero := by
  simp only [validateToken]
  split
  · split
    · rename_i herrs
      intro _
      have h1 : (logoCheck env t).1 = [] :=
        (List.append_eq_nil.mp (List.isEmpty_iff.mp herrs)).2
      have h2 := logoCheck_nil_counters env t h1
      have h21 : (logoCheck env t).2.1 = 0 := by rw [h2]
      have h22 : (logoCheck env t).2.2 = 0 := by rw [h2]
      simp [statsZero, h21, h22]
    · intro h
      simp at h
  · intro h
    simp at h

theorem loopStep_acc (env : Env) (file : String) (ls : LoopSt) (t : Token) :
    (loopStep env file ls t).acc = ls.acc.add (validateToken env t file).2 := rfl

theorem loopStep_allValid (env : Env) (file : String) (ls : LoopSt) (t : Token) :
    (loopStep env file ls t).allValid = (ls.allValid && (validateToken env t file).1) := rfl

/-- If the token loop ends with `allValid` then every token validated. -/
theorem loop_allValid (env : Env) (file : String) :
    ∀ (tokens : List Token) (init : LoopSt),
      (tokens.foldl (loopStep env file) init).allValid = true →
      init.allValid = true ∧ ∀ t ∈ tokens, (validateToken env t file).1 = true := by
  intro tokens
  induction tokens with
  | nil =>
    intro init h
    exact ⟨h, by simp⟩
  | cons t ts ih =>
    intro init h
    rw [List.foldl_cons] at h
    rcases ih _ h with ⟨h1, h2⟩
    rw [loopStep_allValid] at h1
    rcases (Bool.and_eq_true _ _).mp h1 with ⟨hi, hv⟩
    refine ⟨hi, ?_⟩
    intro t' ht'
    rcases List.mem_cons.mp ht' with h' | h'
    · rw [h']
      exact hv
    · exact h2 t' h'

/-- The error records accumulated by the token loop are exactly the
per-token records, in order. -/
theorem loop_acc_errors (env : Env) (file : String) :
    ∀ (tokens : List Token) (init : LoopSt),
      (tokens.foldl (loopStep env file) init).acc.errors =
        init.acc.errors ++
          (tokens.map (fun t => (validateToken env t file).2.errors)).flatten := by
  intro tokens
  induction tokens with
  | nil =>
    intro init
    simp
  | cons t ts ih =>
    intro init
    rw [List.foldl_cons, ih, loopStep_acc, stats_add_errors]
    simp

/-- A loop over all-clean tokens accumulates nothing. -/
theorem loop_acc_zero (env : Env) (file : String) :
    ∀ (tokens : List Token) (init : LoopSt),
      (∀ t ∈ tokens, (validateToken env t file).2 = statsZero) →
      (tokens.foldl (loopStep env file) init).acc = init.acc := by
  intro tokens
  induction tokens with
  | nil =>
    intro init _
    rfl
  | cons t ts ih =>
    intro init h
    rw [List.foldl_cons, ih _ (fun t' ht' => h t' (List.mem_cons_of_mem _ ht')),
      loopStep_acc, h t (List.mem_cons_self t ts), stats_add_statsZero]

/-- When no token throws, the loop completes and equals the plain fold. -/
theorem runTokens_ok (env : Env) (file : String) :
    ∀ (tokens : List Token) (ls : LoopSt),
      (∀ t ∈ tokens, vtThrows t = false ∧ dupThrows t = false) →
      runTokens env file tokens ls = .ok (tokens.foldl (loopStep env file) ls) := by
  intro tokens
  induction tokens with
  | nil =>
    intro ls _
    rfl
  | cons t ts ih =>
    intro ls h
    have ht := h t (List.mem_cons_self t ts)
    simp only [runTokens, ht.1, ht.2, Bool.false_eq_true, if_false, List.foldl_cons]
    exact ih _ (fun t' ht' => h t' (List.mem_cons_of_mem _ ht'))

/-- Conversely, a completed loop means no token threw, and the result is
the plain fold. -/
theorem runTokens_ok_inv (env : Env) (file : String) :
    ∀ (tokens : List Token) (ls ls' : LoopSt),
      runTokens env file tokens ls = .ok ls' →
      ls' = tokens.foldl (loopStep env file) ls ∧
      ∀ t ∈ tokens, vtThrows t = false ∧ dupThrows t = false := by
  intro tokens
  induction tokens with
  | nil =>
    intro ls ls' h
    simp only [runTokens, Except.ok.injEq] at h
    exact ⟨h.symm, by simp⟩
  | cons t ts ih =>
    intro ls ls' h
    simp only [runTokens] at h
    split at h
    · simp at h
    · split at h
      · simp at h
      · rename_i hv hd
        rcases ih _ _ h with ⟨h1, h2⟩
        refine ⟨by rw [List.foldl_cons]; exact h1, ?_⟩
        intro t' ht'
        rcases List.mem_cons.mp ht' with h' | h'
        · subst h'
          constructor
          · revert hv
            cases vtThrows t' <;> simp
          · revert hd
            cases dupThrows t' <;> simp
        · exact h2 t' h'

/-- A file that validates contributes an empty stats delta. -/
theorem validateFile_true_delta (env : Env) (fp : String) :
    (validateFile env fp).1 = true → (validateFile env fp).2 = statsZero := by
  simp only [validateFile]
  split
  · intro h
    simp at h
  · split
    · split
      · intro h
        simp at h
      · split
        · intro h
          simp at h
        · split
          · intro _
            rfl
          · split
            · intro h
              simp at h
            · rename_i ls heq
              intro h
              rcases (Bool.and_eq_true _ _).mp h with ⟨h12, hChain⟩
              rcases (Bool.and_eq_true _ _).mp h12 with ⟨hAll, hDups⟩
              rcases runTokens_ok_inv env fp _ _ _ heq with ⟨hls, -⟩
              subst hls
              have hall := (loop_allValid env fp _ _ hAll).2
              have hacc := loop_acc_zero env fp _ ⟨true, statsZero, [], []⟩
                (fun t ht => validateToken_true_delta env t fp (hall t ht))
              simp [hacc, dupStats, hDups, chainStats, hChain, stats_add_statsZero,
                statsZero_add]
    · intro h
      simp at h

/-- A subset check that passes contributes an empty stats delta. -/
theorem subset_true_delta (env : Env) (cp pp : String) :
    (validatePopularSubset env cp pp).1 = true →
    (validatePopularSubset env cp pp).2 = statsZero := by
  simp only [validatePopularSubset]
  split
  · split
    · split
      · intro _
        rfl
      · intro h
        simp at h
    · intro h
      simp at h
  · intro h
    simp at h

/-- A missing `logos` directory yields exactly the not-found record. -/
theorem validateLogoDirectory_missing (env : Env) (chainDir : String)
    (h : envPathExists env (pathJoin chainDir "logos") = false) :
    validateLogoDirectory env chainDir =
      (false, oneErr (pathJoin chainDir "logos") none [msgNoLogoDir]) := by
  simp [validateLogoDirectory, h]

/-- C1.  The run exits with code 0 exactly when, after processing every
chain directory, the invalid-file, missing-logo and invalid-logo counters
are all zero, and with code 1 exactly when any of them is positive. -/
theorem exit_code_iff_failure_counters (env : Env) :
    ((validateTokenLists env).1 = 0 ↔
      (validateTokenLists env).2.invalidFiles = 0 ∧
      (validateTokenLists env).2.missingLogoFiles = 0 ∧
      (validateTokenLists env).2.invalidLogoFiles = 0) ∧
    ((validateTokenLists env).1 = 1 ↔
      (0 < (validateTokenLists env).2.invalidFiles ∨
       0 < (validateTokenLists env).2.missingLogoFiles ∨
       0 < (validateTokenLists env).2.invalidLogoFiles)) := by
  simp only [validateTokenLists]
  by_cases hC :
      0 < ((chainDirsOf env).foldl (fun st d => st.add (processChain env d)) statsZero).invalidFiles ∨
      0 < ((chainDirsOf env).foldl (fun st d => st.add (processChain env d)) statsZero).missingLogoFiles ∨
      0 < ((chainDirsOf env).foldl (fun st d => st.add (processChain env d)) statsZero).invalidLogoFiles
  · simp only [hC, if_pos]
    constructor
    · constructor
      · intro h
        simp at h
      · intro h
        omega
    · simp [hC]
  · simp only [hC, if_neg]
    constructor
    · constructor
      · intro _
        omega
      · intro _
        rfl
    · constructor
      · intro h
        simp at h
      · intro h
        exact h.elim

/-- C2.  A token with at least one missing required field produces exactly
one violation record listing precisely the missing required fields (in
schema order), and no type, address-format or logo check runs: the delta
carries no other message and no logo counter. -/
theorem missing_fields_short_circuit (env : Env) (t : Token) (file : String)
    (h : missingFields t ≠ []) :
    validateToken env t file =
      (false, oneErr file (some (tokenLabel t)) ((missingFields t).map msgMissing)) := by
  simp only [validateToken]
  rw [if_neg]
  simp [h]

/-- Witness for C2: the §8 token without its `decimals` field gets exactly
the one missing-`decimals` record and an untouched logo counter. -/
theorem missing_fields_short_circuit_witness :
    missingFields tokenNoDec ≠ [] ∧
    validateToken (env8 chk8A chk8G) tokenNoDec "assets/1/common.json" =
      (false, oneErr "assets/1/common.json" (some (.jstr addr8))
        [msgMissing "decimals"]) :=
  ⟨by decide,
   by
    rw [missing_fields_short_circuit (env8 chk8A chk8G) tokenNoDec "assets/1/common.json"
      (by decide)]
    decide⟩

/-- C9.  A file whose raw text lacks the substring `"\n  \""` (newline,
two spaces, double quote) is rejected with the 2-space-indentation
violation alone, whatever `JSON.parse` would say about it: the parse and
schema checks never run. -/
theorem indentation_rejects_before_parse (env : Env) (fp : String) (fm : FileModel)
    (hf : lookupFile env fp = some fm)
    (hind : containsSub fm.raw "\n  \"" = false) :
    validateFile env fp = (false, oneErr fp none [msgIndent]) := by
  simp only [validateFile, hf]
  rw [if_neg]
  simp [hind]

/-- Witness for C9: the §8 document printed compactly parses successfully
(`fmC9.parsed` is the valid single-token document) yet the file is
rejected as not 2-space indented. -/
theorem indentation_rejects_before_parse_witness :
    containsSub rawC9 "\n  \"" = false ∧ fmC9.parsed = .pok doc8 ∧
    validateFile envC9 "assets/1/common.json" =
      (false, oneErr "assets/1/common.json" none [msgIndent]) :=
  ⟨by decide, rfl,
   indentation_rejects_before_parse envC9 "assets/1/common.json" fmC9 (by decide) (by decide)⟩

/-- C10 counterexample.  The GitHub-mapping branch of `resolveLogoPath`
is reachable: the scheme-less URI `u0` contains the repository substring
but does not start with `http`, resolves to a local asset path, and the
resulting path is then checked against the file system (here: reported
missing, bumping the missing-logo counter). -/
theorem github_branch_reachable_counterexample :
    strStarts u0 "http" = false ∧
    resolveLogoPath u0 "1" = some "assets/1/logos/a.png" ∧
    (validateToken envU0 tokU0 "f").2.missingLogoFiles = 1 := by decide

/-- C10 as amended.  Every `logoURI` that begins with `http` resolves to
`none`, so no local file-existence or image-format check runs for it; the
GitHub-mapping branch is however reachable (and its result locally
checked) for strings that contain the repository substring without
beginning with `http`. -/
theorem http_resolves_to_none (u c : String) (h : strStarts u "http" = true) :
    resolveLogoPath u c = none := by
  simp [resolveLogoPath, h]

/-- Witness for the amended C10: a concrete `http` URL resolves to `none`. -/
theorem http_resolves_to_none_witness :
    strStarts "http://example.com/a.png" "http" = true ∧
    resolveLogoPath "http://example.com/a.png" "1" = none :=
  ⟨by decide, http_resolves_to_none "http://example.com/a.png" "1" (by decide)⟩

theorem isChainMsg_msgChainIds (vs : List (Option JVal)) :
    isChainMsg (msgChainIds vs) = true := by
  unfold isChainMsg
  rw [msgHead2_msgChainIds]
  decide

theorem isChainMsg_msgDup (ds : List String) : isChainMsg (msgDup ds) = false := by
  unfold isChainMsg
  rw [msgHead2_msgDup]
  decide

theorem isDupMsg_msgDup (ds : List String) : isDupMsg (msgDup ds) = true := by
  unfold isDupMsg
  rw [msgHead2_msgDup]
  decide

theorem isDupMsg_msgChainIds (vs : List (Option JVal)) :
    isDupMsg (msgChainIds vs) = false := by
  unfold isDupMsg
  rw [msgHead2_msgChainIds]
  decide

theorem msgCount_dupStats_chain (fp : String) (ds : List String) :
    msgCount isChainMsg (dupStats fp ds).errors = 0 := by
  unfold dupStats
  split
  · rfl
  · simp [msgCount, oneErr, statsZero, isChainMsg_msgDup]

theorem msgCount_chainStats_dup (fp : String) (tokens : List Token) :
    msgCount isDupMsg (chainStats fp tokens).errors = 0 := by
  unfold chainStats
  split
  · rfl
  · simp [msgCount, oneErr, statsZero, isDupMsg_msgChainIds]

theorem loop_msgCount_chain (env : Env) (fp : String) (tokens : List Token) :
    msgCount isChainMsg
      ((tokens.foldl (loopStep env fp) ⟨true, statsZero, [], []⟩).acc.errors) = 0 := by
  rw [loop_acc_errors]
  simp only [statsZero, List.nil_append]
  rw [msgCount_flatten]
  apply List.sum_eq_zero
  intro x hx
  rcases List.mem_map.mp hx with ⟨l, hl, hx1⟩
  rcases List.mem_map.mp hl with ⟨t, _, hl1⟩
  rw [← hx1, ← hl1]
  exact validateToken_msgCount_chain env t fp

theorem loop_msgCount_dup (env : Env) (fp : String) (tokens : List Token) :
    msgCount isDupMsg
      ((tokens.foldl (loopStep env fp) ⟨true, statsZero, [], []⟩).acc.errors) = 0 := by
  rw [loop_acc_errors]
  simp only [statsZero, List.nil_append]
  rw [msgCount_flatten]
  apply List.sum_eq_zero
  intro x hx
  rcases List.mem_map.mp hx with ⟨l, hl, hx1⟩
  rcases List.mem_map.mp hl with ⟨t, _, hl1⟩
  rw [← hx1, ← hl1]
  exact validateToken_msgCount_dup env t fp

/-- C6 counterexample.  The document `fmCX` carries two distinct
`chainId` values (1 and 2), but its first token's address is the number
5: the duplicate detector's `toLowerCase()` throws, `validateFile`'s
catch pushes a read-error record and returns before the chain-id report,
so zero chain-id-mismatch messages are recorded — not exactly one. -/
theorem chain_id_mismatch_counterexample :
    chainIdsOf [tCX1, tCX2] = [some (.jint 1), some (.jint 2)] ∧
    msgCount isChainMsg (validateFile envCX "f.json").2.errors = 0 ∧
    (validateFile envCX "f.json").2.errors =
      [⟨"f.json", some (.jint 5),
        [msgMissing "name", msgMissing "symbol", msgMissing "decimals", msgMissing "logoURI"]⟩,
       ⟨"f.json", none, [msgLoopErr]⟩] := by decide

/-- C6 as amended.  A document whose tokens carry exactly two distinct
`chainId` values (first occurrences `a` then `b`) yields exactly one
chain-id-mismatch message across all records of the file, and that
message lists both values, provided no token aborts the loop (every
address is a string or falsy, and no token pairs a `null` chainId with a
`./logos/` logo URI) — otherwise the file ends in a read-error record
before the chain-id report, see the counterexample.  The chainId values
are restricted to primitives, where the embedding of JavaScript `Set`
equality and of value rendering is exact.  The outcome depends on the
token list only through `chainIdsOf`, hence not on how many tokens share
each value. -/
theorem chain_id_mismatch_single_error (env : Env) (fp : String) (fm : FileModel)
    (tokens : List Token) (a b : Option JVal)
    (hf : lookupFile env fp = some fm)
    (hind : containsSub fm.raw "\n  \"" = true)
    (hparse : fm.parsed = .pok ⟨some tokens⟩)
    (hne : tokens.isEmpty = false)
    (hthrow : ∀ t ∈ tokens, vtThrows t = false ∧ dupThrows t = false)
    (_hprim : ∀ t ∈ tokens, isPrimitiveV t.chainId = true)
    (hset : chainIdsOf tokens = [a, b]) :
    msgCount isChainMsg (validateFile env fp).2.errors = 1 ∧
    ∃ pre, (validateFile env fp).2.errors = pre ++ [⟨fp, none, [msgChainIds [a, b]]⟩] := by
  have hchain : chainStats fp tokens = oneErr fp none [msgChainIds [a, b]] := by
    unfold chainStats
    rw [hset]
    rfl
  simp only [validateFile, hf, hind, hparse, hne, if_true, Bool.false_eq_true, if_false]
  rw [runTokens_ok env fp tokens ⟨true, statsZero, [], []⟩ hthrow]
  constructor
  · rw [stats_add_errors, stats_add_errors, msgCount_append, msgCount_append,
      loop_msgCount_chain, msgCount_dupStats_chain, hchain]
    simp [msgCount, oneErr, statsZero, isChainMsg_msgChainIds]
  · refine ⟨(List.foldl (loopStep env fp) ⟨true, statsZero, [], []⟩ tokens).acc.errors ++
      (dupStats fp (List.foldl (loopStep env fp) ⟨true, statsZero, [], []⟩ tokens).dups).errors, ?_⟩
    rw [stats_add_errors, stats_add_errors, hchain]
    simp [oneErr, statsZero]


/-- Witness for the amended C6 at a concrete two-chain-id document. -/
theorem chain_id_mismatch_single_error_witness :
    msgCount isChainMsg (validateFile envCid "f.json").2.errors = 1 ∧
    ∃ pre, (validateFile envCid "f.json").2.errors =
      pre ++ [⟨"f.json", none, [msgChainIds [some (.jint 1), some (.jint 2)]]⟩] :=
  chain_id_mismatch_single_error envCid "f.json" fmCid [tCid1, tCid2]
    (some (.jint 1)) (some (.jint 2))
    (by decide) (by decide) (by decide) (by decide) (by decide) (by decide) (by decide)

/-- C4 counterexample.  The document `fmDup` holds two tokens whose
addresses `0xAB` and `0xab` are equal after lowercasing; the run reports
exactly one duplicate-address record, but its message is
`"Duplicate addresses found: 0xab"`, which does not contain the first
literal `0xAB`: the error does not name both literal address strings. -/
theorem duplicate_naming_counterexample :
    ((validateFile envDup "f.json").2.errors.filter (fun r => r.errors.any isDupMsg)) =
      [⟨"f.json", none, ["Duplicate addresses found: 0xab"]⟩] ∧
    containsSub "Duplicate addresses found: 0xab" "0xAB" = false := by decide

/-- C4 as amended.  For a document of two tokens with non-empty string
addresses equal after lowercasing, neither of which makes logo
resolution throw (no `null` chainId paired with a `./logos/` logo URI;
with string addresses the duplicate detector itself cannot throw), the
duplicate-address error is reported exactly once, and it names the
literal address string of the second token (the repeated occurrence),
not the first occurrence. -/
theorem duplicate_single_record_second_literal (env : Env) (fp : String) (fm : FileModel)
    (t1 t2 : Token) (a1 a2 : String)
    (hf : lookupFile env fp = some fm)
    (hind : containsSub fm.raw "\n  \"" = true)
    (hparse : fm.parsed = .pok ⟨some [t1, t2]⟩)
    (h1 : t1.address = some (.jstr a1))
    (h2 : t2.address = some (.jstr a2))
    (hv1 : vtThrows t1 = false) (hv2 : vtThrows t2 = false)
    (hne1 : a1 ≠ "") (hne2 : a2 ≠ "")
    (hlow : strLower a1 = strLower a2) :
    msgCount isDupMsg (validateFile env fp).2.errors = 1 ∧
    ∃ pre post, (validateFile env fp).2.errors =
      pre ++ ⟨fp, none, [msgDup [a2]]⟩ :: post := by
  have hthrow : ∀ t ∈ [t1, t2], vtThrows t = false ∧ dupThrows t = false := by
    intro t ht
    rcases List.mem_cons.mp ht with h' | h'
    · subst h'
      exact ⟨hv1, by simp [dupThrows, h1]⟩
    · simp only [List.mem_singleton] at h'
      subst h'
      exact ⟨hv2, by simp [dupThrows, h2]⟩
  have hd : (List.foldl (loopStep env fp) ⟨true, statsZero, [], []⟩ [t1, t2]).dups = [a2] := by
    simp [loopStep, dupUpdate, h1, h2, hne1, hne2, memStr, hlow]
  have hds : dupStats fp [a2] = oneErr fp none [msgDup [a2]] := by
    simp [dupStats]
  simp only [validateFile, hf, hind, hparse, if_true]
  rw [if_neg (by simp), runTokens_ok env fp [t1, t2] ⟨true, statsZero, [], []⟩ hthrow]
  constructor
  · rw [stats_add_errors, stats_add_errors, msgCount_append, msgCount_append,
      loop_msgCount_dup, msgCount_chainStats_dup, hd, hds]
    simp [msgCount, oneErr, statsZero, isDupMsg_msgDup]
  · refine ⟨(List.foldl (loopStep env fp) ⟨true, statsZero, [], []⟩ [t1, t2]).acc.errors,
      (chainStats fp [t1, t2]).errors, ?_⟩
    rw [stats_add_errors, stats_add_errors, hd, hds]
    simp [oneErr, statsZero]

/-- Witness for the amended C4 at the concrete document `fmDup`. -/
theorem duplicate_single_record_second_literal_witness :
    msgCount isDupMsg (validateFile envDup "f.json").2.errors = 1 ∧
    ∃ pre post, (validateFile envDup "f.json").2.errors =
      pre ++ ⟨"f.json", none, [msgDup ["0xab"]]⟩ :: post :=
  duplicate_single_record_second_literal envDup "f.json" fmDup tDupA tDupB "0xAB" "0xab"
    (by decide) (by decide) (by decide) (by decide) (by decide)
    (by decide) (by decide) (by decide) (by decide) (by decide)

/-- C3 counterexample.  `popular` holds two addresses (`0xBBB`, `0xCCC`)
absent from `common`, yet the subset check pushes a single record whose
single message lists both, not one `SubsetViolationError` per unmatched
address. -/
theorem popular_subset_counterexample :
    subsetUnmatched [tSubA] [tSubB, tSubC] = ["0xBBB", "0xCCC"] ∧
    validatePopularSubset envSub "c.json" "p.json" =
      (false, oneErr "p.json" none [msgSubset ["0xBBB", "0xCCC"]]) ∧
    (validatePopularSubset envSub "c.json" "p.json").2.errors.length = 1 := by decide

/-- C3 as amended.  The subset check compares addresses case-insensitively
(via `subsetUnmatched`, which lowercases both sides); all unmatched
popular addresses are reported together in one record listing each of
them in document order; and the check is skipped entirely — contributing
nothing — whenever either document already failed validation. -/
theorem popular_subset_single_record (env : Env) (cp pp : String)
    (cts pts : List Token)
    (hc : readDocTokens env cp = some cts)
    (hp : readDocTokens env pp = some pts)
    (hstr : (cts.all addrIsStr && pts.all addrIsStr) = true) :
    (validatePopularSubset env cp pp =
      if (subsetUnmatched cts pts).isEmpty then (true, statsZero)
      else (false, oneErr pp none [msgSubset (subsetUnmatched cts pts)])) ∧
    (∀ cv pv, cv = false ∨ pv = false →
      subsetPart env cv pv cp pp = (false, statsZero)) := by
  constructor
  · simp only [validatePopularSubset, hc, hp, hstr, if_true]
  · intro cv pv h
    rcases h with h | h <;> subst h <;> simp [subsetPart]

/-- Witness for the amended C3 at the concrete pair `envSub`, including a
skip instance with an invalid `common.json`. -/
theorem popular_subset_single_record_witness :
    validatePopularSubset envSub "c.json" "p.json" =
      (if (subsetUnmatched [tSubA] [tSubB, tSubC]).isEmpty then (true, statsZero)
       else (false, oneErr "p.json" none [msgSubset (subsetUnmatched [tSubA] [tSubB, tSubC])])) ∧
    subsetPart envSub false true "c.json" "p.json" = (false, statsZero) :=
  ⟨(popular_subset_single_record envSub "c.json" "p.json" [tSubA] [tSubB, tSubC]
      (by decide) (by decide) (by decide)).1,
   (popular_subset_single_record envSub "c.json" "p.json" [tSubA] [tSubB, tSubC]
      (by decide) (by decide) (by decide)).2 false true (Or.inl rfl)⟩

/-- Feeding one address into an empty duplicate detector cannot report a
duplicate. -/
theorem dupUpdate_empty_seen (dups : List String) (addr : Option JVal) :
    (dupUpdate [] dups addr).2 = dups := by
  unfold dupUpdate
  split
  · split
    · rfl
    · split
      · rename_i h
        simp [memStr] at h
      · rfl
  · rfl

/-- A single-token document has a single chain id. -/
theorem chainIdsOf_single (t : Token) : chainIdsOf [t] = [t.chainId] := by
  simp [chainIdsOf, jsSetOf, memVal]

/-- Evaluation of `validateFile` on a well-formed single-token document
whose token does not abort the loop: exactly the verdict and delta of
`validateToken` on that token: the duplicate and chain-id checks cannot
fire. -/
theorem validateFile_single (env : Env) (fp : String) (fm : FileModel) (t : Token)
    (bv : Bool) (d : Stats)
    (hf : lookupFile env fp = some fm)
    (hind : containsSub fm.raw "\n  \"" = true)
    (hparse : fm.parsed = .pok ⟨some [t]⟩)
    (hv : vtThrows t = false) (hd : dupThrows t = false)
    (hvt : validateToken env t fp = (bv, d)) :
    validateFile env fp = (bv, d) := by
  have hthrow : ∀ t' ∈ [t], vtThrows t' = false ∧ dupThrows t' = false := by
    intro t' ht'
    simp only [List.mem_singleton] at ht'
    subst ht'
    exact ⟨hv, hd⟩
  simp only [validateFile, hf, hind, hparse, if_true]
  rw [if_neg (by simp), runTokens_ok env fp [t] ⟨true, statsZero, [], []⟩ hthrow]
  simp only [List.foldl_cons, List.foldl_nil, loopStep, hvt]
  rw [dupUpdate_empty_seen]
  simp [dupStats, chainStats, chainIdsOf_single, statsZero_add, stats_add_statsZero]

/-- The §8 token validates cleanly whenever the address checker accepts
the checksum address. -/
theorem validateToken_token8 (A : String → Bool) (G : String → Option String)
    (hA : A addr8 = true) (hG : G addr8 = some addr8) (fp : String) :
    validateToken (env8 A G) token8 fp = (true, statsZero) := by
  have hval : isValidChecksumAddress (env8 A G) addr8 = true := by
    simp [isValidChecksumAddress, env8, hA, hG]
  have hte : typeErrs (env8 A G) token8 = [] := by
    simp [typeErrs, token8, hval, isNumberV]
  have hlc : logoCheck (env8 A G) token8 = ([], 0, 0) := rfl
  simp only [validateToken]
  rw [show missingFields token8 = [] from rfl]
  simp only [List.isEmpty_nil, if_true, hte, hlc]
  simp [statsZero]

/-- C7.  The minimal valid pair of §8 — `common.json` and `popular.json`
each holding the single checksum-address token, pretty-printed, with a
valid PNG at the derived path — validates with zero violation records,
both files counted valid, all failure counters zero and exit code 0,
provided the `ethers` checker accepts the checksum address (returns it
unchanged). -/
theorem minimal_valid_pair_passes (A : String → Bool) (G : String → Option String)
    (hA : A addr8 = true) (hG : G addr8 = some addr8) :
    validateTokenLists (env8 A G) = (0, ⟨2, 2, 0, 0, 0, []⟩) := by
  have hc : validateFile (env8 A G) "assets/1/common.json" = (true, statsZero) :=
    validateFile_single _ _ fm8 token8 true statsZero rfl (by decide) rfl
      (by decide) (by decide) (validateToken_token8 A G hA hG _)
  have hp : validateFile (env8 A G) "assets/1/popular.json" = (true, statsZero) :=
    validateFile_single _ _ fm8 token8 true statsZero rfl (by decide) rfl
      (by decide) (by decide) (validateToken_token8 A G hA hG _)
  have hsub : validatePopularSubset (env8 A G) "assets/1/common.json" "assets/1/popular.json" =
      (true, statsZero) := rfl
  have hld : validateLogoDirectory (env8 A G) "assets/1" = (true, statsZero) := rfl
  simp only [validateTokenLists]
  rw [show chainDirsOf (env8 A G) = ["assets/1"] from rfl]
  simp only [List.foldl_cons, List.foldl_nil, statsZero_add]
  simp only [processChain]
  rw [show envPathExists (env8 A G) (pathJoin "assets/1" "common.json") = true from rfl,
    show envPathExists (env8 A G) (pathJoin "assets/1" "popular.json") = true from rfl]
  simp only [if_true]
  rw [show pathJoin "assets/1" "common.json" = "assets/1/common.json" from rfl,
    show pathJoin "assets/1" "popular.json" = "assets/1/popular.json" from rfl]
  simp only [hld, hc, hp, subsetPart, Bool.and_self, if_true, hsub]
  simp [Stats.add, statsZero]

/-- Witness for C7 with the concrete checker accepting exactly `addr8`. -/
theorem minimal_valid_pair_passes_witness :
    chk8A addr8 = true ∧ chk8G addr8 = some addr8 ∧
    validateTokenLists (env8 chk8A chk8G) = (0, ⟨2, 2, 0, 0, 0, []⟩) :=
  ⟨by decide, by decide, minimal_valid_pair_passes chk8A chk8G (by decide) (by decide)⟩

/-- C5 counterexample.  Deleting the PNG from the §8 pair produces TWO
missing-logo-file errors — one while validating `common.json`, one while
validating `popular.json` (both reference the same logo) — with the
missing-logo counter at 2, not "exactly one" as claimed; the exit code is
1 and the subset check is skipped (both files are invalid), so it does
not "still run and report clean". -/
theorem missing_logo_counterexample :
    validateTokenLists (env5 chk8A chk8G) =
      (1, ⟨2, 0, 2, 2, 0,
        [⟨"assets/1/common.json", some (.jstr addr8), [msgLogoMissing logoPath8]⟩,
         ⟨"assets/1/popular.json", some (.jstr addr8), [msgLogoMissing logoPath8]⟩]⟩) := by
  decide

/-- The §8 token against the PNG-less file system: one missing-logo
message and a bumped missing-logo counter. -/
theorem validateToken_token8_noPng (A : String → Bool) (G : String → Option String)
    (hA : A addr8 = true) (hG : G addr8 = some addr8) (fp : String) :
    validateToken (env5 A G) token8 fp =
      (false, ⟨0, 0, 0, 1, 0, [⟨fp, some (.jstr addr8), [msgLogoMissing logoPath8]⟩]⟩) := by
  have hval : isValidChecksumAddress (env5 A G) addr8 = true := by
    simp [isValidChecksumAddress, env5, hA, hG]
  have hte : typeErrs (env5 A G) token8 = [] := by
    simp [typeErrs, token8, hval, isNumberV]
  have hlc : logoCheck (env5 A G) token8 = ([msgLogoMissing logoPath8], 1, 0) := rfl
  simp only [validateToken]
  rw [show missingFields token8 = [] from rfl]
  simp only [List.isEmpty_nil, if_true, hte, hlc]
  rw [show tokenLabel token8 = .jstr addr8 from rfl]
  simp

/-- C5 as amended.  Starting from the §8 pair and deleting the PNG file,
the run reports one `MissingLogoFile` error per referencing file — two in
total, for `common.json` and `popular.json` — sets the missing-logo
counter to 2, marks both files invalid, skips the subset check (both
files already failed), and exits with code 1.  Duplicate-address,
chain-id and logo-directory checks stay clean. -/
theorem missing_logo_two_errors (A : String → Bool) (G : String → Option String)
    (hA : A addr8 = true) (hG : G addr8 = some addr8) :
    validateTokenLists (env5 A G) =
      (1, ⟨2, 0, 2, 2, 0,
        [⟨"assets/1/common.json", some (.jstr addr8), [msgLogoMissing logoPath8]⟩,
         ⟨"assets/1/popular.json", some (.jstr addr8), [msgLogoMissing logoPath8]⟩]⟩) := by
  have hc : validateFile (env5 A G) "assets/1/common.json" =
      (false, ⟨0, 0, 0, 1, 0,
        [⟨"assets/1/common.json", some (.jstr addr8), [msgLogoMissing logoPath8]⟩]⟩) :=
    validateFile_single _ _ fm8 token8 false _ rfl (by decide) rfl
      (by decide) (by decide) (validateToken_token8_noPng A G hA hG _)
  have hp : validateFile (env5 A G) "assets/1/popular.json" =
      (false, ⟨0, 0, 0, 1, 0,
        [⟨"assets/1/popular.json", some (.jstr addr8), [msgLogoMissing logoPath8]⟩]⟩) :=
    validateFile_single _ _ fm8 token8 false _ rfl (by decide) rfl
      (by decide) (by decide) (validateToken_token8_noPng A G hA hG _)
  have hld : validateLogoDirectory (env5 A G) "assets/1" = (true, statsZero) := rfl
  simp only [validateTokenLists]
  rw [show chainDirsOf (env5 A G) = ["assets/1"] from rfl]
  simp only [List.foldl_cons, List.foldl_nil, statsZero_add]
  simp only [processChain]
  rw [show envPathExists (env5 A G) (pathJoin "assets/1" "common.json") = true from rfl,
    show envPathExists (env5 A G) (pathJoin "assets/1" "popular.json") = true from rfl]
  simp only [if_true]
  rw [show pathJoin "assets/1" "common.json" = "assets/1/common.json" from rfl,
    show pathJoin "assets/1" "popular.json" = "assets/1/popular.json" from rfl]
  simp only [hld, hc, hp, subsetPart, Bool.false_and, Bool.and_false, if_false]
  simp [Stats.add, statsZero]

/-- Witness for the amended C5 with the concrete checker. -/
theorem missing_logo_two_errors_witness :
    chk8A addr8 = true ∧ chk8G addr8 = some addr8 ∧
    validateTokenLists (env5 chk8A chk8G) =
      (1, ⟨2, 0, 2, 2, 0,
        [⟨"assets/1/common.json", some (.jstr addr8), [msgLogoMissing logoPath8]⟩,
         ⟨"assets/1/popular.json", some (.jstr addr8), [msgLogoMissing logoPath8]⟩]⟩) :=
  ⟨by decide, by decide, missing_logo_two_errors chk8A chk8G (by decide) (by decide)⟩

/-- C8.  A single chain directory whose `common.json` and `popular.json`
both validate (and satisfy the subset check) but whose `logos`
subdirectory is missing: the run records the `Logo directory not found`
violation, yet none of the invalid-file / missing-logo / invalid-logo
counters moves, so the process exits with code 0 despite the non-empty
violation list. -/
theorem logo_dir_missing_still_passes (env : Env) (d : String)
    (hdirs : chainDirsOf env = [d])
    (hce : envPathExists env (pathJoin d "common.json") = true)
    (hpe : envPathExists env (pathJoin d "popular.json") = true)
    (hld : envPathExists env (pathJoin d "logos") = false)
    (hcv : (validateFile env (pathJoin d "common.json")).1 = true)
    (hpv : (validateFile env (pathJoin d "popular.json")).1 = true)
    (hsv : (validatePopularSubset env (pathJoin d "common.json")
      (pathJoin d "popular.json")).1 = true) :
    validateTokenLists env =
      (0, ⟨2, 2, 0, 0, 0, [⟨pathJoin d "logos", none, [msgNoLogoDir]⟩]⟩) := by
  have hc2 : validateFile env (pathJoin d "common.json") = (true, statsZero) :=
    Prod.ext_iff.mpr ⟨hcv, validateFile_true_delta env _ hcv⟩
  have hp2 : validateFile env (pathJoin d "popular.json") = (true, statsZero) :=
    Prod.ext_iff.mpr ⟨hpv, validateFile_true_delta env _ hpv⟩
  have hs2 : validatePopularSubset env (pathJoin d "common.json")
      (pathJoin d "popular.json") = (true, statsZero) :=
    Prod.ext_iff.mpr ⟨hsv, subset_true_delta env _ _ hsv⟩
  have hldr := validateLogoDirectory_missing env d hld
  simp only [validateTokenLists]
  rw [hdirs]
  simp only [List.foldl_cons, List.foldl_nil, statsZero_add]
  simp only [processChain, hce, hpe, if_true]
  simp only [hldr, hc2, hp2, subsetPart, Bool.and_self, if_true, hs2]
  simp [Stats.add, statsZero, oneErr]

/-- Witness for C8: the concrete chain directory `envC8` (remote logo
URIs, no `logos` directory) exits 0 with exactly the one not-found
record. -/
theorem logo_dir_missing_still_passes_witness :
    validateTokenLists envC8 =
      (0, ⟨2, 2, 0, 0, 0, [⟨pathJoin "assets/1" "logos", none, [msgNoLogoDir]⟩]⟩) :=
  logo_dir_missing_still_passes envC8 "assets/1" (by decide) (by decide) (by decide)
    (by decide) (by decide) (by decide) (by decide)
